import Mathlib

/-!
Verification of the real-time presence / delivery-fanout engine of the
chat backend (`backend/server.js`).  The socket layer is embedded as a
pure state machine: the shared `activeUsers` JavaScript `Map` and the
socket.io room-membership table form the state, each inbound socket
event is an `InEvent`, and the handler bodies are translated into the
`step` function, which returns the updated state together with the list
of outbound actions (emissions and message-store calls) the handler
performs, in order.
-/

namespace Chatapp

abbrev SocketId := String
abbrev UserId := String
abbrev ConvId := String
abbrev RoomId := String

/-- `Map.get(k)` on a JavaScript `Map` represented as an insertion-ordered
association list (keys unique by construction of `mapSet`). -/
def mapGet (k : String) : List (String × String) → Option String
  | [] => none
  | (k', v) :: rest => if k' = k then some v else mapGet k rest

/-- `Map.set(k, v)`: updates the value in place when the key exists
(keeping its insertion position), otherwise appends a new entry. -/
def mapSet (k v : String) : List (String × String) → List (String × String)
  | [] => [(k, v)]
  | (k', v') :: rest => if k' = k then (k, v) :: rest else (k', v') :: mapSet k v rest

/-- `Map.delete(k)`: removes the entry with key `k` when present. -/
def mapDelete (k : String) : List (String × String) → List (String × String)
  | [] => []
  | (k', v') :: rest => if k' = k then rest else (k', v') :: mapDelete k rest

/-- `socket.join(room)`: set-semantics add of a (room, socket) membership. -/
def roomJoin (room : RoomId) (sock : SocketId)
    (rooms : List (RoomId × SocketId)) : List (RoomId × SocketId) :=
  if (room, sock) ∈ rooms then rooms else rooms ++ [(room, sock)]

/-- `socket.leave(room)`: removes the (room, socket) membership. -/
def roomLeave (room : RoomId) (sock : SocketId)
    (rooms : List (RoomId × SocketId)) : List (RoomId × SocketId) :=
  rooms.filter (fun p => !(p.1 == room && p.2 == sock))

/-- The room name used by the handlers: `conversation_${conversationId}`. -/
def roomName (convId : ConvId) : RoomId := "conversation_" ++ convId

/-- Payload of a `send_message` socket event (`data`), as used by the handler. -/
structure MsgData where
  conversation_id : ConvId
  content : String
deriving DecidableEq, Repr

/-- Outbound socket events emitted by the server handlers. -/
inductive OutEvent where
  | userStatusChange (userId : UserId) (status : String)
  | newMessage (data : MsgData)
  | userTyping (userId userName : String)
  | userStopTyping (userId : String)
  | incomingCall (fromUserId : Option UserId) (callType : String)
      (conversationId : ConvId) (callId : String)
  | callFailed (reason : String)
  | callAccepted (callId : String)
  | callRejected (callId : String)
  | callEnded (callId : String)
deriving DecidableEq, Repr

/-- Routing target of an emission, matching the three socket.io dispatch
primitives the handlers use. -/
inductive Target where
  /-- `io.to(socketId).emit` or `socket.emit` (the socket itself). -/
  | socket (sid : SocketId)
  /-- `socket.broadcast.emit`: every connected socket except the sender. -/
  | broadcastFrom (sender : SocketId)
  /-- `socket.to(room).emit`: every socket in the room except the sender. -/
  | roomFrom (room : RoomId) (sender : SocketId)
deriving DecidableEq, Repr

/-- An observable action a handler performs, in program order.  `persist`
stands for a call into the message-store collaborator (the SQL layer);
the socket handlers of `server.js` never perform one, but the action is
in the alphabet so that its absence is expressible. -/
inductive Action where
  | emit (t : Target) (e : OutEvent)
  | persist (d : MsgData)
deriving DecidableEq, Repr

/-- Inbound socket events handled by `io.on('connection')`'s handlers.
`initiateCall` carries the value of `Date.now()` at handling time. -/
inductive InEvent where
  | userOnline (sock : SocketId) (userId : UserId)
  | joinConversation (sock : SocketId) (convId : ConvId)
  | leaveConversation (sock : SocketId) (convId : ConvId)
  | sendMessage (sock : SocketId) (data : MsgData)
  | typingStart (sock : SocketId) (userId userName : String) (convId : ConvId)
  | typingStop (sock : SocketId) (userId : String) (convId : ConvId)
  | initiateCall (sock : SocketId) (toUserId : UserId) (callType : String)
      (convId : ConvId) (now : Nat)
  | acceptCall (sock : SocketId) (callId : String) (toUserId : UserId)
  | rejectCall (sock : SocketId) (callId : String) (toUserId : UserId)
  | endCall (sock : SocketId) (callId : String) (toUserId : UserId)
  | disconnect (sock : SocketId)
deriving DecidableEq, Repr

/-- Server state: the `activeUsers` map (userId → socketId), the socket.io
room-membership table, and each socket's `userId` property (`socket.userId`,
which no handler ever assigns). -/
structure ServerState where
  activeUsers : List (UserId × SocketId)
  rooms : List (RoomId × SocketId)
  socketUserId : List (SocketId × UserId)
deriving DecidableEq, Repr

def initState : ServerState := ⟨[], [], []⟩

/-- One inbound event processed by the corresponding handler of
`server.js`, returning the new state and the actions performed. -/
def step (st : ServerState) (ev : InEvent) : ServerState × List Action :=
  match ev with
  | .userOnline sock userId =>
      ({ st with activeUsers := mapSet userId sock st.activeUsers },
       [.emit (.broadcastFrom sock) (.userStatusChange userId "online")])
  | .joinConversation sock convId =>
      ({ st with rooms := roomJoin (roomName convId) sock st.rooms }, [])
  | .leaveConversation sock convId =>
      ({ st with rooms := roomLeave (roomName convId) sock st.rooms }, [])
  | .sendMessage sock data =>
      (st, [.emit (.roomFrom (roomName data.conversation_id) sock) (.newMessage data)])
  | .typingStart sock userId userName convId =>
      (st, [.emit (.roomFrom (roomName convId) sock) (.userTyping userId userName)])
  | .typingStop sock userId convId =>
      (st, [.emit (.roomFrom (roomName convId) sock) (.userStopTyping userId)])
  | .initiateCall sock toUserId callType convId now =>
      match mapGet toUserId st.activeUsers with
      | some target =>
          (st, [.emit (.socket target)
                  (.incomingCall (mapGet sock st.socketUserId) callType convId (toString now))])
      | none =>
          (st, [.emit (.socket sock) (.callFailed "User offline")])
  | .acceptCall _sock callId toUserId =>
      match mapGet toUserId st.activeUsers with
      | some target => (st, [.emit (.socket target) (.callAccepted callId)])
      | none => (st, [])
  | .rejectCall _sock callId toUserId =>
      match mapGet toUserId st.activeUsers with
      | some target => (st, [.emit (.socket target) (.callRejected callId)])
      | none => (st, [])
  | .endCall _sock callId toUserId =>
      match mapGet toUserId st.activeUsers with
      | some target => (st, [.emit (.socket target) (.callEnded callId)])
      | none => (st, [])
  | .disconnect sock =>
      match st.activeUsers.find? (fun p => p.2 == sock) with
      | some p =>
          ({ st with activeUsers := mapDelete p.1 st.activeUsers },
           [.emit (.broadcastFrom sock) (.userStatusChange p.1 "offline")])
      | none => (st, [])

/-- Process a list of inbound events from a state, accumulating actions. -/
def run (st : ServerState) : List InEvent → ServerState × List Action
  | [] => (st, [])
  | ev :: evs =>
      let p := step st ev
      let q := run p.1 evs
      (q.1, p.2 ++ q.2)

/-- `ConnectionRegistry.resolve(userId)`: the live connections recorded
for a user — over this code, the at-most-one socket stored in `activeUsers`. -/
def resolve (st : ServerState) (u : UserId) : List SocketId :=
  match mapGet u st.activeUsers with
  | some s => [s]
  | none => []

/-- socket.io delivery semantics of a `socket.to(room).emit` target:
the event reaches socket `s` iff `s` is in the room and is not the sender. -/
def roomFromDelivers (rooms : List (RoomId × SocketId)) (room : RoomId)
    (sender s : SocketId) : Prop :=
  s ≠ sender ∧ (room, s) ∈ rooms

instance (rooms : List (RoomId × SocketId)) (room : RoomId) (sender s : SocketId) :
    Decidable (roomFromDelivers rooms room sender s) := by
  unfold roomFromDelivers; infer_instance

/-- Is this action a `user_status_change` broadcast for user `u` with the
given status? -/
def isStatusBroadcast (u : UserId) (status : String) : Action → Bool
  | .emit (.broadcastFrom _) (.userStatusChange u' s') => u' == u && s' == status
  | _ => false

/-- Number of `user_status_change` broadcasts for `u` with `status` in an
action list. -/
def countStatus (acts : List Action) (u : UserId) (status : String) : Nat :=
  (acts.filter (isStatusBroadcast u status)).length

/-- Number of message-store calls in an action list. -/
def countPersist (acts : List Action) : Nat :=
  (acts.filter (fun a => match a with | .persist _ => true | _ => false)).length

/-- Number of `new_message` emissions in an action list. -/
def countNewMessage (acts : List Action) : Nat :=
  (acts.filter (fun a => match a with
    | .emit _ (.newMessage _) => true
    | _ => false)).length

/-- The `fromUserId` fields of all `incoming_call` emissions, in order. -/
def incomingFroms (acts : List Action) : List (Option UserId) :=
  acts.filterMap (fun a => match a with
    | .emit _ (.incomingCall fu _ _ _) => some fu
    | _ => none)

/-- The `callId` fields of all `incoming_call` emissions, in order. -/
def callIds (acts : List Action) : List String :=
  acts.filterMap (fun a => match a with
    | .emit _ (.incomingCall _ _ _ cid) => some cid
    | _ => none)

/-- Number of emissions of event `e` to the single socket `sid`. -/
def countToSocket (acts : List Action) (sid : SocketId) (e : OutEvent) : Nat :=
  (acts.filter (fun a => match a with
    | .emit (.socket sid') e' => sid' == sid && e' == e
    | _ => false)).length

/-! Basic lemmas about the map and room primitives. -/

theorem mapGet_mapSet_self (k v : String) :
    ∀ m, mapGet k (mapSet k v m) = some v
  | [] => by simp [mapSet, mapGet]
  | (k', v') :: rest => by
      by_cases h : k' = k
      · simp [mapSet, mapGet, h]
      · simp [mapSet, mapGet, h, mapGet_mapSet_self k v rest]

theorem mapDelete_length (k : String) :
    ∀ m : List (String × String), m.length ≤ (mapDelete k m).length + 1
  | [] => by simp [mapDelete]
  | (k', v') :: rest => by
      by_cases h : k' = k
      · simp [mapDelete, h]
      · simpa [mapDelete, h, Nat.succ_le_succ_iff] using mapDelete_length k rest

theorem step_socketUserId (st : ServerState) (ev : InEvent) :
    (step st ev).1.socketUserId = st.socketUserId := by
  cases ev <;> simp only [step] <;> first | rfl | (split <;> rfl)

theorem run_socketUserId (evs : List InEvent) :
    ∀ st : ServerState, (run st evs).1.socketUserId = st.socketUserId := by
  induction evs with
  | nil => intro st; rfl
  | cons ev evs ih =>
      intro st
      show (run (step st ev).1 evs).1.socketUserId = st.socketUserId
      rw [ih, step_socketUserId]

/-! Claim C1: per-user connection sets under `user_online`. -/

/-- C1 counterexample: announcing user `u` first from socket `s1` and then
from socket `s2` leaves `resolve u` without `s1` — the second announcement
overwrites the first connection-id, so the registry does NOT keep both
connection-ids of the user, refuting the claim at this concrete input. -/
theorem c1_counterexample :
    "s1" ∉ resolve (run initState [.userOnline "s1" "u", .userOnline "s2" "u"]).1 "u" ∧
    "s2" ∈ resolve (run initState [.userOnline "s1" "u", .userOnline "s2" "u"]).1 "u" := by
  decide

/-- C1 (amended): the registry keeps a single connection-id per user —
after two `user_online` announcements for the same userId, `resolve userId`
contains exactly the most recently announced connection-id: the earlier
one is lost (last-write-wins), from any starting state. -/
theorem c1_amended (st : ServerState) (s1 s2 u : String) :
    resolve (run st [.userOnline s1 u, .userOnline s2 u]).1 u = [s2] := by
  simp [run, step, resolve, mapGet_mapSet_self]

/-! Claim C2: presence broadcasts vs. genuine online/offline transitions. -/

/-- C2 counterexample: after user `u` is announced from `s1` (so `u` is
online, `resolve u` non-empty), a second `user_online` for `u` broadcasts
"online" again — an online broadcast is emitted even though the user's
connection count did not cross from zero to non-zero. -/
theorem c2_counterexample :
    resolve (run initState [.userOnline "s1" "u"]).1 "u" ≠ [] ∧
    countStatus
      (step (run initState [.userOnline "s1" "u"]).1 (.userOnline "s1" "u")).2
      "u" "online" = 1 := by
  decide

/-- C2 (amended): every `user_online` event unconditionally emits exactly
one "online" broadcast, regardless of whether the user was already online;
when some entry of `activeUsers` stores the disconnecting socket-id, the
`disconnect` handler's actions are exactly one "offline"
`user_status_change` broadcast for the first such entry's userId (so that
user's offline-broadcast count is exactly one), when no entry matches the
handler emits nothing, and in every case a disconnect performs at most one
action (so never more than one offline broadcast; since the registry
stores at most one connection per user there is no connection count to
cross). -/
theorem c2_amended (st : ServerState) (sock u : String) :
    countStatus (step st (.userOnline sock u)).2 u "online" = 1 ∧
    (∀ p, st.activeUsers.find? (fun q => q.2 == sock) = some p →
      (step st (.disconnect sock)).2 =
        [.emit (.broadcastFrom sock) (.userStatusChange p.1 "offline")] ∧
      countStatus (step st (.disconnect sock)).2 p.1 "offline" = 1) ∧
    (st.activeUsers.find? (fun q => q.2 == sock) = none →
      (step st (.disconnect sock)).2 = []) ∧
    (step st (.disconnect sock)).2.length ≤ 1 := by
  refine ⟨?_, ?_, ?_, ?_⟩
  · simp [step, countStatus, isStatusBroadcast]
  · intro p hp
    constructor
    · simp [step, hp]
    · simp [step, hp, countStatus, isStatusBroadcast]
  · intro h; simp [step, h]
  · cases h : st.activeUsers.find? (fun q => q.2 == sock) <;> simp [step, h]

/-- C2 witness: in a state where user "u" is stored with socket "s1", the
disconnect of "s1" finds the entry and emits exactly one "offline"
broadcast for "u". -/
theorem c2_witness :
    (⟨[("u", "s1")], [], []⟩ : ServerState).activeUsers.find?
      (fun q => q.2 == "s1") = some ("u", "s1") ∧
    countStatus (step ⟨[("u", "s1")], [], []⟩ (.disconnect "s1")).2 "u" "offline" = 1 :=
  ⟨by decide,
    ((c2_amended ⟨[("u", "s1")], [], []⟩ "s1" "u").2.1 ("u", "s1") (by decide)).2⟩

/-! Claim C3: unknown / already-terminal call-ids. -/

/-- C3 counterexample: after a full initiate → accept → end sequence for
callId "5", a second `end_call` with the same callId does not fail — it
emits `call_ended` to the callee's socket a second time, so the run
contains two `call_ended "5"` emissions to `sB` instead of one. -/
theorem c3_counterexample :
    countToSocket
      (run initState
        [.userOnline "sB" "B", .userOnline "sA" "A",
         .initiateCall "sA" "B" "video" "c" 5,
         .acceptCall "sB" "5" "A",
         .endCall "sA" "5" "B",
         .endCall "sA" "5" "B"]).2
      "sB" (.callEnded "5") = 2 := by
  decide

/-- C3 (amended): the code tracks no call sessions at all, so there is no
UnknownCall failure and no terminal state: `accept_call`, `reject_call`
and `end_call` never mutate state, and `end_call` with an arbitrary
call-id (known, terminal, or never issued) emits `call_ended` to the
stored socket of `toUserId` whenever that user is in `activeUsers`, and
silently emits nothing when it is not. -/
theorem c3_amended (st : ServerState) (sock cid toU : String) :
    (step st (.acceptCall sock cid toU)).1 = st ∧
    (step st (.rejectCall sock cid toU)).1 = st ∧
    (step st (.endCall sock cid toU)).1 = st ∧
    (∀ t, mapGet toU st.activeUsers = some t →
      (step st (.endCall sock cid toU)).2 = [.emit (.socket t) (.callEnded cid)]) ∧
    (mapGet toU st.activeUsers = none → (step st (.endCall sock cid toU)).2 = []) := by
  refine ⟨?_, ?_, ?_, ?_, ?_⟩
  · cases h : mapGet toU st.activeUsers <;> simp [step, h]
  · cases h : mapGet toU st.activeUsers <;> simp [step, h]
  · cases h : mapGet toU st.activeUsers <;> simp [step, h]
  · intro t h; simp [step, h]
  · intro h; simp [step, h]

/-- C3 witness: instantiating the amended theorem at a concrete state in
which user "B" is stored with socket "sB". -/
theorem c3_witness :
    mapGet "B" (⟨[("B", "sB")], [], []⟩ : ServerState).activeUsers = some "sB" ∧
    (step ⟨[("B", "sB")], [], []⟩ (.endCall "sA" "5" "B")).2 =
      [.emit (.socket "sB") (.callEnded "5")] :=
  ⟨by decide, (c3_amended ⟨[("B", "sB")], [], []⟩ "sA" "5" "B").2.2.2.1 "sB" (by decide)⟩

/-! Claim C4: only the designated callee may accept. -/

/-- C4 counterexample: caller "A" calls callee "B"; a third user "Eve"
(socket "sEve", distinct from the designated callee "B") sends
`accept_call` — the caller "A" still receives `call_accepted`, with no
NotCallee rejection: the code performs no callee check. -/
theorem c4_counterexample :
    countToSocket
      (run initState
        [.userOnline "sA" "A", .userOnline "sB" "B", .userOnline "sEve" "Eve",
         .initiateCall "sA" "B" "audio" "c" 9,
         .acceptCall "sEve" "9" "A"]).2
      "sA" (.callAccepted "9") = 1 ∧
    mapGet "Eve"
      (run initState
        [.userOnline "sA" "A", .userOnline "sB" "B", .userOnline "sEve" "Eve",
         .initiateCall "sA" "B" "audio" "c" 9,
         .acceptCall "sEve" "9" "A"]).1.activeUsers = some "sEve" ∧
    "Eve" ≠ "B" := by
  decide

/-- C4 (amended): `accept_call` verifies nothing about the responder: for
EVERY responding socket (designated callee or not), when `toUserId` is in
`activeUsers` the handler leaves the state unchanged and emits
`call_accepted` to that user's stored socket; there is no NotCallee
failure path. -/
theorem c4_amended (st : ServerState) (sock cid toU t : String)
    (h : mapGet toU st.activeUsers = some t) :
    step st (.acceptCall sock cid toU) = (st, [.emit (.socket t) (.callAccepted cid)]) := by
  simp [step, h]

/-- C4 witness: instantiating the amended theorem with a responder socket
"sEve" unrelated to the stored user. -/
theorem c4_witness :
    mapGet "A" (⟨[("A", "sA")], [], []⟩ : ServerState).activeUsers = some "sA" ∧
    step ⟨[("A", "sA")], [], []⟩ (.acceptCall "sEve" "9" "A") =
      (⟨[("A", "sA")], [], []⟩, [.emit (.socket "sA") (.callAccepted "9")]) :=
  ⟨by decide, c4_amended ⟨[("A", "sA")], [], []⟩ "sEve" "9" "A" "sA" (by decide)⟩

/-! Claim C5: persist-then-broadcast ordering for message events. -/

theorem countPersist_append (a b : List Action) :
    countPersist (a ++ b) = countPersist a + countPersist b := by
  simp [countPersist, List.filter_append]

theorem countPersist_step (st : ServerState) (ev : InEvent) :
    countPersist (step st ev).2 = 0 := by
  cases ev <;> simp only [step] <;> (try split) <;> simp [countPersist]

theorem countPersist_run (evs : List InEvent) :
    ∀ st : ServerState, countPersist (run st evs).2 = 0 := by
  induction evs with
  | nil => intro st; rfl
  | cons ev evs ih =>
      intro st
      show countPersist ((step st ev).2 ++ (run (step st ev).1 evs).2) = 0
      rw [countPersist_append, countPersist_step, ih]

/-- C5 counterexample: a `send_message` for conversation "c" (with "s2"
subscribed) broadcasts `new_message` while the whole run performs zero
message-store calls — the broadcast proceeds without any persistence, so
it cannot be ordered after a successful persist. -/
theorem c5_counterexample :
    countNewMessage
      (run initState [.joinConversation "s2" "c",
        .sendMessage "s1" ⟨"c", "hello"⟩]).2 = 1 ∧
    countPersist
      (run initState [.joinConversation "s2" "c",
        .sendMessage "s1" ⟨"c", "hello"⟩]).2 = 0 := by
  decide

/-- C5 (amended): the `send_message` socket handler broadcasts the
received payload to the conversation room immediately and never invokes
the message store: its only action is the `new_message` room emission,
and no run of the socket layer from the initial state ever performs a
persistence call (persistence happens only through the separate HTTP
route, decoupled from this broadcast). -/
theorem c5_amended (st : ServerState) (sock : String) (data : MsgData)
    (evs : List InEvent) :
    (step st (.sendMessage sock data)).1 = st ∧
    (step st (.sendMessage sock data)).2 =
      [.emit (.roomFrom (roomName data.conversation_id) sock) (.newMessage data)] ∧
    countPersist (run initState evs).2 = 0 :=
  ⟨rfl, rfl, countPersist_run evs initState⟩

/-! Claim C6: initiating a call to an offline callee. -/

theorem resolve_eq_nil (st : ServerState) (u : String)
    (h : resolve st u = []) : mapGet u st.activeUsers = none := by
  unfold resolve at h
  cases h' : mapGet u st.activeUsers with
  | none => rfl
  | some s => rw [h'] at h; simp at h

/-- C6 (confirmed): when the callee has no live connection
(`resolve calleeId = []`), `initiate_call` leaves the state unchanged
(no session is created — the code keeps no session state at all), emits
exactly one `call_failed` event back to the caller's own socket, and
delivers no `incoming_call` to anyone. -/
theorem c6_offline_callee (st : ServerState) (sock toU ct cv : String) (now : Nat)
    (h : resolve st toU = []) :
    step st (.initiateCall sock toU ct cv now) =
      (st, [.emit (.socket sock) (.callFailed "User offline")]) ∧
    callIds (step st (.initiateCall sock toU ct cv now)).2 = [] := by
  have h' := resolve_eq_nil st toU h
  constructor
  · simp [step, h']
  · simp [step, h', callIds]

/-- C6 witness: initiating a call from the empty initial state, where
every user is offline. -/
theorem c6_witness :
    resolve initState "B" = [] ∧
    step initState (.initiateCall "sA" "B" "video" "c" 7) =
      (initState, [.emit (.socket "sA") (.callFailed "User offline")]) :=
  ⟨by decide, (c6_offline_callee initState "sA" "B" "video" "c" 7 (by decide)).1⟩

/-! Claim C7: room-scoped sends exclude the sender and reach all other
subscribers. -/

/-- C7 (confirmed): `send_message`, `typing_start` and `typing_stop` each
emit exactly one room-scoped event whose target is
`socket.to(conversation room)` with the sender excluded; under that
target's delivery semantics the event never reaches the sender's own
connection, and it reaches every other connection currently subscribed
to the room. -/
theorem c7_room_send_excludes_sender (st : ServerState) (sock : SocketId)
    (data : MsgData) (uid uname conv : String) (s : SocketId) :
    (step st (.sendMessage sock data)).2 =
      [.emit (.roomFrom (roomName data.conversation_id) sock) (.newMessage data)] ∧
    (step st (.typingStart sock uid uname conv)).2 =
      [.emit (.roomFrom (roomName conv) sock) (.userTyping uid uname)] ∧
    (step st (.typingStop sock uid conv)).2 =
      [.emit (.roomFrom (roomName conv) sock) (.userStopTyping uid)] ∧
    ¬ roomFromDelivers st.rooms (roomName conv) sock sock ∧
    ((roomName conv, s) ∈ st.rooms → s ≠ sock →
      roomFromDelivers st.rooms (roomName conv) sock s) := by
  refine ⟨rfl, rfl, rfl, ?_, ?_⟩
  · intro hc; exact hc.1 rfl
  · intro hm hne; exact ⟨hne, hm⟩

/-- C7 witness: a concrete state where socket "s2" has joined the room of
conversation "c" and socket "s1" sends: "s2" receives the event. -/
theorem c7_witness :
    (roomName "c", "s2") ∈ (⟨[], [("conversation_c", "s2")], []⟩ : ServerState).rooms ∧
    ("s2" : SocketId) ≠ "s1" ∧
    roomFromDelivers (⟨[], [("conversation_c", "s2")], []⟩ : ServerState).rooms
      (roomName "c") "s1" "s2" :=
  ⟨by decide, by decide,
    (c7_room_send_excludes_sender ⟨[], [("conversation_c", "s2")], []⟩ "s1"
      ⟨"c", "x"⟩ "u" "n" "c" "s2").2.2.2.2 (by decide) (by decide)⟩

/-! Claim C8: uniqueness of generated call-ids. -/

/-- C8 counterexample: two distinct successfully initiated calls (to the
online callees "B" and "C") handled at the same `Date.now()` value 42
both receive call-id "42" — the generated call-ids are not unique. -/
theorem c8_counterexample :
    callIds
      (run initState
        [.userOnline "sB" "B", .userOnline "sC" "C",
         .initiateCall "sA" "B" "v" "c1" 42,
         .initiateCall "sA" "C" "v" "c2" 42]).2 = ["42", "42"] := by
  decide

/-- C8 (amended): `initiate_call` assigns `Date.now().toString()` as the
call-id: a successful initiation handled at timestamp `now` emits exactly
one `incoming_call` whose call-id is the decimal string of `now`, so two
successful initiations receive distinct call-ids exactly when their
timestamp strings differ — and, as the counterexample shows, two calls
initiated in the same millisecond share a call-id. -/
theorem c8_amended (st : ServerState) (sock toU ct cv : String) (now : Nat)
    (t : String) (h : mapGet toU st.activeUsers = some t) :
    (step st (.initiateCall sock toU ct cv now)).2 =
      [.emit (.socket t)
        (.incomingCall (mapGet sock st.socketUserId) ct cv (toString now))] ∧
    callIds (step st (.initiateCall sock toU ct cv now)).2 = [toString now] := by
  constructor
  · simp [step, h]
  · simp [step, h, callIds]

/-- C8 witness: a successful initiation at timestamp 42 toward the stored
callee "B" carries call-id "42". -/
theorem c8_witness :
    mapGet "B" (⟨[("B", "sB")], [], []⟩ : ServerState).activeUsers = some "sB" ∧
    callIds (step ⟨[("B", "sB")], [], []⟩ (.initiateCall "sA" "B" "v" "c" 42)).2 =
      [toString 42] :=
  ⟨by decide, (c8_amended ⟨[("B", "sB")], [], []⟩ "sA" "B" "v" "c" 42 "sB" (by decide)).2⟩

/-! Claim C9: `socket.userId` is never assigned, so `incoming_call`
always carries an undefined `fromUserId`. -/

theorem incomingFroms_append (a b : List Action) :
    incomingFroms (a ++ b) = incomingFroms a ++ incomingFroms b := by
  simp [incomingFroms, List.filterMap_append]

theorem incomingFroms_step (st : ServerState) (ev : InEvent)
    (h : st.socketUserId = []) :
    ∀ fu ∈ incomingFroms (step st ev).2, fu = none := by
  cases ev <;> simp only [step] <;> (try split) <;>
    simp_all [incomingFroms, mapGet]

theorem incomingFroms_run (evs : List InEvent) :
    ∀ st : ServerState, st.socketUserId = [] →
      ∀ fu ∈ incomingFroms (run st evs).2, fu = none := by
  induction evs with
  | nil => intro st _ fu hfu; simp [run, incomingFroms] at hfu
  | cons ev evs ih =>
      intro st h fu hfu
      have hsplit : incomingFroms (run st (ev :: evs)).2 =
          incomingFroms (step st ev).2 ++ incomingFroms (run (step st ev).1 evs).2 :=
        incomingFroms_append _ _
      rw [hsplit] at hfu
      rcases List.mem_append.1 hfu with hl | hr
      · exact incomingFroms_step st ev h fu hl
      · exact ih (step st ev).1 (by rw [step_socketUserId, h]) fu hr

/-- C9 (confirmed): in every run of the server from its initial state, no
handler ever assigns `socket.userId`, so every `incoming_call` emission —
including those produced by `initiate_call` with an online callee —
carries `fromUserId = none` (JavaScript `undefined`). -/
theorem c9_incoming_call_from_undefined (evs : List InEvent) (fu : Option UserId)
    (h : fu ∈ incomingFroms (run initState evs).2) : fu = none :=
  incomingFroms_run evs initState rfl fu h

/-- C9 witness: a concrete run with an online callee produces an
`incoming_call` emission, and its `fromUserId` is `none`. -/
theorem c9_witness :
    (none : Option UserId) ∈
      incomingFroms (run initState
        [.userOnline "s2" "b", .initiateCall "s1" "b" "video" "c" 7]).2 ∧
    (none : Option UserId) = none :=
  ⟨by decide,
    c9_incoming_call_from_undefined
      [.userOnline "s2" "b", .initiateCall "s1" "b" "video" "c" 7] none (by decide)⟩

/-! Claim C10: disconnect removes at most one active-users entry. -/

/-- C10 (confirmed): a disconnect removes at most one entry from
`activeUsers` (the cleanup loop stops at the first entry whose stored
socket-id matches); if one socket `s` announces `user_online` for two
distinct userIds `u1` then `u2`, its disconnect deletes and broadcasts
"offline" for only the first matching userId `u1`, while `u2` stays
recorded with the now-dangling socket-id `s` and no offline broadcast. -/
theorem c10_disconnect_single_removal (st : ServerState) (sock s u1 u2 : String)
    (h : u1 ≠ u2) :
    st.activeUsers.length ≤ (step st (.disconnect sock)).1.activeUsers.length + 1 ∧
    (run initState [.userOnline s u1, .userOnline s u2, .disconnect s]).1.activeUsers
      = [(u2, s)] ∧
    countStatus
      (run initState [.userOnline s u1, .userOnline s u2, .disconnect s]).2
      u1 "offline" = 1 ∧
    countStatus
      (run initState [.userOnline s u1, .userOnline s u2, .disconnect s]).2
      u2 "offline" = 0 := by
  refine ⟨?_, ?_, ?_, ?_⟩
  · cases hf : st.activeUsers.find? (fun p => p.2 == sock) with
    | none => simp [step, hf]
    | some p => simpa [step, hf] using mapDelete_length p.1 st.activeUsers
  · simp [run, step, mapSet, mapDelete, h, initState]
  · simp [run, step, mapSet, mapDelete, h, initState, countStatus, isStatusBroadcast]
  · simp [run, step, mapSet, mapDelete, h, initState, countStatus, isStatusBroadcast,
      Ne.symm h]

/-- C10 witness: socket "s1" announces userIds "a" and "b"; after its
disconnect only "b" remains, bound to the dead socket "s1". -/
theorem c10_witness :
    ("a" : String) ≠ "b" ∧
    (run initState
      [.userOnline "s1" "a", .userOnline "s1" "b", .disconnect "s1"]).1.activeUsers
      = [("b", "s1")] :=
  ⟨by decide,
    (c10_disconnect_single_removal initState "s0" "s1" "a" "b" (by decide)).2.1⟩

end Chatapp
